import Mathlib

/-!
Verification of the libbitcoin-network core against its specification.

The development shallowly embeds three parts of the repository:

* the script engine interface (`script.hpp`): opcodes, operations, script
  parsing/serialization and the transaction signature hash;
* the channel proxy (`proxy.cpp`): the framed read cycle, send path and
  stop protocol, modelled as pure functions from a proxy state to a new
  proxy state paired with an ordered trace of observable events
  (handler invocations, socket operations, subscriber notifications);
* the peer session manager (`p2p.cpp`): the start chain and the stop
  sequence, modelled the same way.

External collaborators (sockets, thread pool, subscribers, crypto
primitives, canonical codecs) are represented by events in the trace or
by function parameters, matching the specification's scope which treats
them as opaque.
-/

/-- Error codes surfaced by the library (`error` enumeration): `success`,
precondition failures, the stop sentinels, stream errors, and transport
codes mapped from the socket layer (represented by `transport n`). -/
inductive Code where
  | success
  | operation_failed
  | service_stopped
  | channel_stopped
  | bad_stream
  | address_in_use
  | file_system
  | transport (n : Nat)
deriving DecidableEq, Repr

/-- Observable actions of a channel proxy, in the order the code performs
them: handler invocations, initiations of asynchronous socket operations,
subscriber registry operations and channel housekeeping. -/
inductive Event where
  | handlerCalled (c : Code)
  | readHeadingInitiated
  | readPayloadInitiated (size : Nat)
  | writeInitiated (message : List Nat)
  | msgSubscriberStarted
  | stopSubscriberStarted
  | msgSubscriberStopped
  | stopSubscriberStopped
  | msgBroadcast (c : Code)
  | stopRelay (c : Code)
  | handleStopping
  | socketClosed
  | msgLoaded
  | activity
deriving DecidableEq, Repr

/-- Mutable state of a `proxy` relevant to the embedded operations: the
atomic `stopped_` flag.  The subscriber registries and the socket are
modelled through the event trace. -/
structure ProxyState where
  stopped : Bool
deriving DecidableEq, Repr

/-- A 24-byte wire heading as parsed by `heading::from_data`: network
magic, 12-byte command, payload size and payload checksum. -/
structure Heading where
  magic : Nat
  command : List Nat
  payload_size : Nat
  checksum : Nat
deriving DecidableEq, Repr

namespace proxy

/-- Payload size guard from proxy.cpp: `10 * 1024 * 1024`. -/
def max_payload_size : Nat := 10 * 1024 * 1024

/-- Embedding of `proxy::stop(const code&)`: if already stopped, return
with no effect; otherwise set `stopped_`, stop the message subscriber and
broadcast `channel_stopped`, stop the stop subscriber and relay `ec`,
run `handle_stopping`, and close the socket. -/
def stop (ec : Code) (p : ProxyState) : ProxyState × List Event :=
  if p.stopped then (p, [])
  else
    (ProxyState.mk true,
      [Event.msgSubscriberStopped, Event.msgBroadcast Code.channel_stopped,
       Event.stopSubscriberStopped, Event.stopRelay ec,
       Event.handleStopping, Event.socketClosed])

/-- Embedding of `proxy::read_heading`: return if stopped, otherwise
initiate the asynchronous 24-byte heading read. -/
def read_heading (p : ProxyState) : ProxyState × List Event :=
  if p.stopped then (p, []) else (p, [Event.readHeadingInitiated])

/-- Embedding of `proxy::start(result_handler)`: fail with
`operation_failed` if not stopped; otherwise clear `stopped_`, start the
stop subscriber then the message subscriber, invoke the handler with
`success`, and only then enter the read cycle. -/
def start (p : ProxyState) : ProxyState × List Event :=
  if p.stopped = false then (p, [Event.handlerCalled Code.operation_failed])
  else
    let r := read_heading (ProxyState.mk false)
    (r.1, [Event.stopSubscriberStarted, Event.msgSubscriberStarted,
           Event.handlerCalled Code.success] ++ r.2)

/-- Embedding of `proxy::read_payload(const heading&)`: return if
stopped, otherwise resize the payload buffer and initiate the
asynchronous payload read of `head.payload_size` bytes. -/
def read_payload (head : Heading) (p : ProxyState) : ProxyState × List Event :=
  if p.stopped then (p, [])
  else (p, [Event.readPayloadInitiated head.payload_size])

/-- Embedding of `proxy::handle_read_heading`: return if stopped; stop
with the transport code on read error; stop with `bad_stream` when the
heading fails to parse or bears a foreign magic or declares an oversized
payload; otherwise initiate the payload read and record activity.
`parsed` is the result of the external `heading::from_data` codec. -/
def handle_read_heading (magic : Nat) (ec : Code) (parsed : Option Heading)
    (p : ProxyState) : ProxyState × List Event :=
  if p.stopped then (p, [])
  else if ec ≠ Code.success then stop ec p
  else
    match parsed with
    | none => stop Code.bad_stream p
    | some head =>
      if head.magic ≠ magic then stop Code.bad_stream p
      else if head.payload_size > max_payload_size then stop Code.bad_stream p
      else
        let r := read_payload head p
        (r.1, r.2 ++ [Event.activity])

/-- Embedding of `message_subscriber_.load(head.type(), istream)` as
invoked from the payload handler: the subscribers are notified of the new
message; a subscriber callback may itself stop the channel, which is
modelled by the `sub_stop` parameter. -/
def subscriber_load (sub_stop : Option Code) (p : ProxyState) :
    ProxyState × List Event :=
  match sub_stop with
  | none => (p, [Event.msgLoaded])
  | some c =>
    let r := stop c p
    (r.1, Event.msgLoaded :: r.2)

/-- Embedding of `proxy::handle_read_payload`: return if stopped; stop
with `bad_stream` on checksum mismatch; parse and publish the payload;
return if a subscriber stopped the channel; stop with the transport code
on read error; stop with the parse error code on parse failure, falling
through (without returning) to `handle_activity` and `read_heading`;
otherwise record activity and re-enter the read cycle.  `payload_checksum`
stands for the external `bitcoin_checksum(payload_buffer_)`, and
`parse_error` for the code returned by the message subscriber's load. -/
def handle_read_payload (ec : Code) (head : Heading) (payload_checksum : Nat)
    (parse_error : Code) (sub_stop : Option Code) (p : ProxyState) :
    ProxyState × List Event :=
  if p.stopped then (p, [])
  else if head.checksum ≠ payload_checksum then stop Code.bad_stream p
  else
    let l := subscriber_load sub_stop p
    if l.1.stopped then l
    else if ec ≠ Code.success then
      let s := stop ec l.1
      (s.1, l.2 ++ s.2)
    else if parse_error ≠ Code.success then
      let s := stop parse_error l.1
      let r := read_heading s.1
      (r.1, l.2 ++ s.2 ++ [Event.activity] ++ r.2)
    else
      let r := read_heading l.1
      (r.1, l.2 ++ [Event.activity] ++ r.2)

/-- Embedding of `proxy::do_send`: if stopped, invoke the handler with
`channel_stopped` and do not touch the socket; otherwise initiate the
asynchronous write of the serialized message. -/
def do_send (message : List Nat) (p : ProxyState) : ProxyState × List Event :=
  if p.stopped then (p, [Event.handlerCalled Code.channel_stopped])
  else (p, [Event.writeInitiated message])

/-- Embedding of `proxy::handle_send`: the handler is always invoked with
the (converted) write result. -/
def handle_send (ec : Code) : List Event := [Event.handlerCalled ec]

end proxy

/-- Observable actions of the `p2p` session manager, in the order the
code performs them. -/
inductive PEvent where
  | handlerCalled (c : Code)
  | subscriberStarted
  | threadpoolJoin
  | threadpoolSpawn
  | manualSessionAttached
  | manualSessionStarted
  | hostsLoad
  | seedSessionAttached
  | seedSessionStarted
  | subscriberStopped
  | subscriberRelay (c : Code)
  | connectionsStopped (c : Code)
  | manualCleared
  | hostsSave
  | threadpoolShutdown
deriving DecidableEq, Repr

/-- Mutable state of the `p2p` manager relevant to the embedded
operations: the atomic `stopped_` flag and whether the `manual_` session
reference is set. -/
structure P2PState where
  stopped : Bool
  manualSet : Bool
deriving DecidableEq, Repr

namespace p2p

/-- Embedding of `p2p::handle_hosts_seeded`: report `service_stopped` if
the manager stopped meanwhile, relay a seed-session error, otherwise end
the start sequence with `success`. -/
def handle_hosts_seeded (ec : Code) (m : P2PState) : P2PState × List PEvent :=
  if m.stopped then (m, [PEvent.handlerCalled Code.service_stopped])
  else if ec ≠ Code.success then (m, [PEvent.handlerCalled ec])
  else (m, [PEvent.handlerCalled Code.success])

/-- Embedding of `p2p::handle_hosts_loaded`: report `service_stopped` if
the manager stopped meanwhile, relay a host-load error, otherwise attach
and start the seed session whose completion (with external result
`seed_result`) continues in `handle_hosts_seeded`. -/
def handle_hosts_loaded (seed_result : Code) (ec : Code) (m : P2PState) :
    P2PState × List PEvent :=
  if m.stopped then (m, [PEvent.handlerCalled Code.service_stopped])
  else if ec ≠ Code.success then (m, [PEvent.handlerCalled ec])
  else
    let r := handle_hosts_seeded seed_result m
    (r.1, [PEvent.seedSessionAttached, PEvent.seedSessionStarted] ++ r.2)

/-- Embedding of `p2p::handle_manual_started`: report `service_stopped`
if the manager stopped meanwhile, relay a manual-session error, otherwise
load the host store (external result `load_result`) and continue in
`handle_hosts_loaded`. -/
def handle_manual_started (load_result seed_result : Code) (ec : Code)
    (m : P2PState) : P2PState × List PEvent :=
  if m.stopped then (m, [PEvent.handlerCalled Code.service_stopped])
  else if ec ≠ Code.success then (m, [PEvent.handlerCalled ec])
  else
    let r := handle_hosts_loaded seed_result load_result m
    (r.1, [PEvent.hostsLoad] ++ r.2)

/-- Embedding of `p2p::start(result_handler)`: fail with
`operation_failed` if not stopped; otherwise clear `stopped_`, start the
subscriber, join then spawn the thread pool, attach and start the manual
session and store its reference; the manual session's completion (with
external result `manual_result`) continues in `handle_manual_started`. -/
def start (manual_result load_result seed_result : Code) (m : P2PState) :
    P2PState × List PEvent :=
  if m.stopped = false then (m, [PEvent.handlerCalled Code.operation_failed])
  else
    let m1 := P2PState.mk false true
    let r := handle_manual_started load_result seed_result manual_result m1
    (r.1, [PEvent.subscriberStarted, PEvent.threadpoolJoin,
           PEvent.threadpoolSpawn, PEvent.manualSessionAttached,
           PEvent.manualSessionStarted] ++ r.2)

/-- Embedding of `p2p::stop(result_handler)`: stop the subscriber and
relay `service_stopped`, stop the connections set, clear the manual
session reference, save the host store only when not already stopped
(external result `save_result`), set `stopped_`, shut down the thread
pool, and invoke the handler with the save result (or `success` when the
save was skipped). -/
def stop (save_result : Code) (m : P2PState) : P2PState × List PEvent :=
  let ec := if m.stopped then Code.success else save_result
  let save_events := if m.stopped then ([] : List PEvent) else [PEvent.hostsSave]
  (P2PState.mk true false,
   [PEvent.subscriberStopped, PEvent.subscriberRelay Code.service_stopped,
    PEvent.connectionsStopped Code.service_stopped, PEvent.manualCleared]
   ++ save_events ++ [PEvent.threadpoolShutdown, PEvent.handlerCalled ec])

end p2p

/-- Opcode enumeration from the script header (`enum class opcode`), with
the numeric values assigned there. -/
inductive Opcode where
  | raw_data
  | special
  | pushdata1
  | pushdata2
  | pushdata4
  | op_1
  | op_2
  | op_3
  | op_4
  | op_5
  | op_6
  | op_7
  | op_8
  | op_9
  | op_10
  | op_11
  | op_12
  | op_13
  | op_14
  | op_15
  | op_16
  | nop
  | drop
  | dup
  | sha256
  | hash160
  | equal
  | equalverify
  | checksig
  | codeseparator
  | bad_operation
deriving DecidableEq, Repr

/-- Numeric value of each opcode per the header's `enum class opcode`
(`raw_data = 0`, `special = 1`, `pushdata1 = 76`, ..., `checksig = 172`,
then `codeseparator` and `bad_operation` continue as 173 and 174). -/
def opcode_byte : Opcode → Nat
  | Opcode.raw_data => 0
  | Opcode.special => 1
  | Opcode.pushdata1 => 76
  | Opcode.pushdata2 => 77
  | Opcode.pushdata4 => 78
  | Opcode.op_1 => 81
  | Opcode.op_2 => 82
  | Opcode.op_3 => 83
  | Opcode.op_4 => 84
  | Opcode.op_5 => 85
  | Opcode.op_6 => 86
  | Opcode.op_7 => 87
  | Opcode.op_8 => 88
  | Opcode.op_9 => 89
  | Opcode.op_10 => 90
  | Opcode.op_11 => 91
  | Opcode.op_12 => 92
  | Opcode.op_13 => 93
  | Opcode.op_14 => 94
  | Opcode.op_15 => 95
  | Opcode.op_16 => 96
  | Opcode.nop => 97
  | Opcode.drop => 117
  | Opcode.dup => 118
  | Opcode.sha256 => 168
  | Opcode.hash160 => 169
  | Opcode.equal => 135
  | Opcode.equalverify => 136
  | Opcode.checksig => 172
  | Opcode.codeseparator => 173
  | Opcode.bad_operation => 174

/-- Direct mapping of a non-push byte to the opcode enumeration; bytes
outside the enumeration yield `bad_operation` (spec: "unknown bytes yield
`bad_operation`"). -/
def byte_to_opcode (b : Nat) : Opcode :=
  if b = 81 then Opcode.op_1
  else if b = 82 then Opcode.op_2
  else if b = 83 then Opcode.op_3
  else if b = 84 then Opcode.op_4
  else if b = 85 then Opcode.op_5
  else if b = 86 then Opcode.op_6
  else if b = 87 then Opcode.op_7
  else if b = 88 then Opcode.op_8
  else if b = 89 then Opcode.op_9
  else if b = 90 then Opcode.op_10
  else if b = 91 then Opcode.op_11
  else if b = 92 then Opcode.op_12
  else if b = 93 then Opcode.op_13
  else if b = 94 then Opcode.op_14
  else if b = 95 then Opcode.op_15
  else if b = 96 then Opcode.op_16
  else if b = 97 then Opcode.nop
  else if b = 117 then Opcode.drop
  else if b = 118 then Opcode.dup
  else if b = 168 then Opcode.sha256
  else if b = 169 then Opcode.hash160
  else if b = 135 then Opcode.equal
  else if b = 136 then Opcode.equalverify
  else if b = 172 then Opcode.checksig
  else if b = 173 then Opcode.codeseparator
  else Opcode.bad_operation

/-- An operation (`struct operation`): an opcode with an optional byte
payload, present only for push-data opcodes. -/
structure Operation where
  code : Opcode
  data : List Nat
deriving DecidableEq, Repr

/-- The push opcodes: those that carry a byte payload. -/
def is_push_code : Opcode → Bool
  | Opcode.raw_data => true
  | Opcode.special => true
  | Opcode.pushdata1 => true
  | Opcode.pushdata2 => true
  | Opcode.pushdata4 => true
  | _ => false

/-- 2-byte little-endian encoding of a length. -/
def to_le2 (n : Nat) : List Nat := [n % 256, n / 256 % 256]

/-- 4-byte little-endian encoding of a length. -/
def to_le4 (n : Nat) : List Nat :=
  [n % 256, n / 256 % 256, n / 65536 % 256, n / 16777216 % 256]

/-- The tag the parser assigns to the smallest push encoding that fits a
payload of `n` bytes: a direct push (`raw_data`) up to 75 bytes, then
`pushdata1`, `pushdata2`, `pushdata4`. -/
def smallest_push_code (n : Nat) : Opcode :=
  if n ≤ 75 then Opcode.raw_data
  else if n ≤ 255 then Opcode.pushdata1
  else if n ≤ 65535 then Opcode.pushdata2
  else Opcode.pushdata4

/-- Modelled from the spec: the implementation of `save_script` (declared
in the script header, src/unnamed/part_000 line 127) is not under src/.
Per spec section 4.1, serialization of one operation is the inverse of
parse, "choosing the smallest push encoding that fits the payload size":
a direct length byte for payloads up to 75 bytes, `0x4C`/`0x4D`/`0x4E`
plus a 1/2/4-byte little-endian length otherwise; a non-push opcode is
emitted as its single enumeration byte. -/
def save_op (op : Operation) : List Nat :=
  if is_push_code op.code then
    let n := op.data.length
    if n ≤ 75 then n :: op.data
    else if n ≤ 255 then 76 :: (n :: op.data)
    else if n ≤ 65535 then 77 :: (to_le2 n ++ op.data)
    else 78 :: (to_le4 n ++ op.data)
  else [opcode_byte op.code]

/-- Modelled from the spec: `save_script` serializes the operation
sequence by concatenating the serialization of each operation. -/
def save_script : List Operation → List Nat
  | [] => []
  | op :: s => save_op op ++ save_script s

/-- Modelled from the spec: one step of the byte-by-byte script decoding
of spec section 4.1 Parse — `0x00..0x4B` push the next N bytes (tagged
`raw_data`, empty payload for `0x00`); `0x4C`/`0x4D`/`0x4E` read a
1/2/4-byte little-endian length L and push the next L bytes (tagged
`pushdata1/2/4`); other bytes map directly to the opcode enumeration,
unknown bytes yielding `bad_operation`.  Returns the decoded operation
and the remaining bytes, or `none` when the script is truncated. -/
def parse_op (bs : List Nat) : Option (Operation × List Nat) :=
  match bs with
  | [] => none
  | b :: rest =>
    if b ≤ 75 then
      if rest.length < b then none
      else some (Operation.mk Opcode.raw_data (rest.take b), rest.drop b)
    else if b = 76 then
      match rest with
      | [] => none
      | l :: rest1 =>
        if rest1.length < l then none
        else some (Operation.mk Opcode.pushdata1 (rest1.take l), rest1.drop l)
    else if b = 77 then
      match rest with
      | l0 :: l1 :: rest1 =>
        if rest1.length < l0 + 256 * l1 then none
        else some (Operation.mk Opcode.pushdata2 (rest1.take (l0 + 256 * l1)),
                   rest1.drop (l0 + 256 * l1))
      | _ => none
    else if b = 78 then
      match rest with
      | l0 :: l1 :: l2 :: l3 :: rest1 =>
        if rest1.length < l0 + 256 * l1 + 65536 * l2 + 16777216 * l3 then none
        else some
          (Operation.mk Opcode.pushdata4
            (rest1.take (l0 + 256 * l1 + 65536 * l2 + 16777216 * l3)),
           rest1.drop (l0 + 256 * l1 + 65536 * l2 + 16777216 * l3))
      | _ => none
    else some (Operation.mk (byte_to_opcode b) [], rest)

/-- Fuelled loop decoding operations until the input is exhausted; the
fuel only serves termination and is in practice the byte count. -/
def parse_loop : Nat → List Nat → Option (List Operation)
  | _, [] => some []
  | 0, _ :: _ => none
  | fuel + 1, b :: rest =>
    match parse_op (b :: rest) with
    | none => none
    | some (op, remaining) =>
      match parse_loop fuel remaining with
      | none => none
      | some ops => some (op :: ops)

/-- Modelled from the spec: the implementation of `parse_script`
(declared in the script header, src/unnamed/part_000 line 126) is not
under src/.  Decodes raw script bytes into the operation sequence per
spec section 4.1 Parse; `none` on a truncated push. -/
def parse_script (bs : List Nat) : Option (List Operation) :=
  parse_loop bs.length bs

/-- An operation is well formed when a push payload carries the tag of
its smallest encoding (and fits the 4-byte length field), and a non-push
opcode carries no payload. -/
def well_formed_op (op : Operation) : Bool :=
  if is_push_code op.code then
    (op.code == smallest_push_code op.data.length)
      && decide (op.data.length < 4294967296)
  else op.data == []

/-- A script is well formed when each of its operations is. -/
def well_formed_script (s : List Operation) : Bool := s.all well_formed_op

/-- A transaction input: previous output reference, input script
(operation sequence) and sequence number. -/
structure TxInput where
  previous_hash : List Nat
  previous_index : Nat
  script : List Operation
  sequence : Nat
deriving DecidableEq, Repr

/-- A transaction output: 64-bit value and output script. -/
structure TxOutput where
  value : Nat
  script : List Operation
deriving DecidableEq, Repr

/-- A transaction (`message::transaction`): version, inputs, outputs,
lock time. -/
structure Transaction where
  version : Nat
  inputs : List TxInput
  outputs : List TxOutput
  locktime : Nat
deriving DecidableEq, Repr

namespace script

/-- Spec step 1: clear every input script of the copy and set input `i`'s
script to the sub-script. -/
def clear_input_scripts (inputs : List TxInput) (i : Nat)
    (sub : List Operation) : List TxInput :=
  inputs.enum.map (fun p =>
    if p.1 = i then { p.2 with script := sub } else { p.2 with script := [] })

/-- Spec steps for `none`/`single`: set every other input's sequence
number to 0. -/
def zero_other_sequences (inputs : List TxInput) (i : Nat) : List TxInput :=
  inputs.enum.map (fun p =>
    if p.1 = i then p.2 else { p.2 with sequence := 0 })

/-- A blanked output for `SIGHASH_SINGLE`: value 2^64 - 1 and an empty
script. -/
def blank_output : TxOutput := TxOutput.mk (2 ^ 64 - 1) []

/-- Spec step for `single`: truncate the outputs to `i + 1` and blank
outputs `0 .. i - 1`. -/
def single_outputs (outputs : List TxOutput) (i : Nat) : List TxOutput :=
  ((outputs.take (i + 1)).enum).map
    (fun p => if p.1 < i then blank_output else p.2)

/-- Spec step 3 for `anyone_can_pay`: discard all inputs except input
`i`. -/
def only_input (inputs : List TxInput) (i : Nat) : List TxInput :=
  (inputs.enum.filter (fun p => p.1 == i)).map (fun p => p.2)

/-- The `SIGHASH_SINGLE` out-of-range result: 32 bytes, all zero except
the last byte, which is 1. -/
def one_hash : List Nat := List.replicate 31 0 ++ [1]

/-- Modelled from the spec: the implementation of
`script::generate_signature_hash` (declared in the script header,
src/unnamed/part_000 lines 90-92) is not under src/.  This follows spec
section 4.1 "Signature hash algorithm" step by step.  `dsha` stands for
the external double-SHA-256 primitive and `canonical` for the external
canonical Bitcoin transaction serializer, both out-of-scope collaborators
per the spec.  The legacy `SIGHASH_SINGLE` quirk: when
`hash_type & 0x1F = 3` and `input_index` is at or beyond the output
count, the hash is `one_hash` without any serialization. -/
def generate_signature_hash (dsha : List Nat → List Nat)
    (canonical : Transaction → List Nat) (tx : Transaction)
    (input_index : Nat) (script_code : List Operation) (hash_type : Nat) :
    List Nat :=
  let subscript := script_code.filter (fun op => op.code != Opcode.codeseparator)
  let tx1 : Transaction :=
    { tx with inputs := clear_input_scripts tx.inputs input_index subscript }
  if hash_type % 32 = 3 ∧ tx.outputs.length ≤ input_index then one_hash
  else
    let tx2 : Transaction :=
      if hash_type % 32 = 2 then
        { tx1 with outputs := [],
                   inputs := zero_other_sequences tx1.inputs input_index }
      else if hash_type % 32 = 3 then
        { tx1 with outputs := single_outputs tx1.outputs input_index,
                   inputs := zero_other_sequences tx1.inputs input_index }
      else tx1
    let tx3 : Transaction :=
      if hash_type / 128 % 2 = 1 then
        { tx2 with inputs := only_input tx2.inputs input_index }
      else tx2
    dsha (canonical tx3 ++ to_le4 hash_type)

end script

/-- Claim C1: for every transaction `tx`, input index `i`, script code
`S`, and 32-bit `hash_type` whose low five bits equal 3 (SIGHASH_SINGLE),
if `i` is at or beyond the number of outputs of `tx` then
`generate_signature_hash` returns the 32-byte digest that is all zeros
except the last byte, which is 1 — for any choice of the external
double-SHA-256 and canonical serializer. -/
theorem sighash_single_out_of_range (dsha : List Nat → List Nat)
    (canonical : Transaction → List Nat) (tx : Transaction) (i : Nat)
    (S : List Operation) (hash_type : Nat) (_h32 : hash_type < 4294967296)
    (hlow : hash_type % 32 = 3) (hout : tx.outputs.length ≤ i) :
    script.generate_signature_hash dsha canonical tx i S hash_type
      = List.replicate 31 0 ++ [1] := by
  simp [script.generate_signature_hash, script.one_hash, hlow, hout]

/-- Witness for C1: a transaction with no outputs, input index 0 and
`hash_type = 3` yields the constant quirk digest. -/
theorem sighash_single_out_of_range_witness :
    script.generate_signature_hash (fun l => l) (fun _ => [])
      (Transaction.mk 1 [] [] 0) 0 [] 3 = List.replicate 31 0 ++ [1] :=
  sighash_single_out_of_range (fun l => l) (fun _ => [])
    (Transaction.mk 1 [] [] 0) 0 [] 3 (by decide) (by decide) (by decide)

lemma save_op_length_pos (op : Operation) : 0 < (save_op op).length := by
  simp only [save_op]
  split_ifs <;> simp [to_le2, to_le4]

lemma smallest_eq_raw_data (n : Nat)
    (h : Opcode.raw_data = smallest_push_code n) : n ≤ 75 := by
  unfold smallest_push_code at h
  split_ifs at h with h1 h2 h3
  exact h1

lemma smallest_eq_pushdata1 (n : Nat)
    (h : Opcode.pushdata1 = smallest_push_code n) : 75 < n ∧ n ≤ 255 := by
  unfold smallest_push_code at h
  split_ifs at h with h1 h2 h3
  exact ⟨by omega, h2⟩

lemma smallest_eq_pushdata2 (n : Nat)
    (h : Opcode.pushdata2 = smallest_push_code n) : 255 < n ∧ n ≤ 65535 := by
  unfold smallest_push_code at h
  split_ifs at h with h1 h2 h3
  exact ⟨by omega, h3⟩

lemma smallest_eq_pushdata4 (n : Nat)
    (h : Opcode.pushdata4 = smallest_push_code n) : 65535 < n := by
  unfold smallest_push_code at h
  split_ifs at h with h1 h2 h3
  omega

lemma smallest_ne_special (n : Nat) :
    Opcode.special ≠ smallest_push_code n := by
  unfold smallest_push_code
  split_ifs <;> simp

lemma parse_op_direct (data r : List Nat) (h75 : data.length ≤ 75) :
    parse_op (data.length :: (data ++ r))
      = some (Operation.mk Opcode.raw_data data, r) := by
  simp only [parse_op, List.length_append]
  rw [if_pos h75, if_neg (by omega), List.take_left, List.drop_left]

lemma parse_op_pd1 (data r : List Nat) (_h76 : 76 ≤ data.length)
    (_h255 : data.length ≤ 255) :
    parse_op (76 :: (data.length :: (data ++ r)))
      = some (Operation.mk Opcode.pushdata1 data, r) := by
  have hnl : ¬ (data.length + r.length < data.length) := by omega
  simp only [parse_op, List.length_append]
  rw [if_pos trivial, if_neg hnl, List.take_left, List.drop_left]
  simp

lemma parse_op_pd2 (data r : List Nat) (h256 : 256 ≤ data.length)
    (h65535 : data.length ≤ 65535) :
    parse_op (77 :: (data.length % 256 :: (data.length / 256 % 256 ::
      (data ++ r)))) = some (Operation.mk Opcode.pushdata2 data, r) := by
  have hL : data.length % 256 + 256 * (data.length / 256 % 256)
      = data.length := by omega
  have hne : ¬ ((77 : Nat) = 76) := by decide
  have hnl : ¬ (data.length + r.length < data.length) := by omega
  simp only [parse_op, List.length_append, hL]
  rw [if_neg hne, if_neg hnl, List.take_left, List.drop_left]
  simp

lemma parse_op_pd4 (data r : List Nat) (h65536 : 65536 ≤ data.length)
    (h32 : data.length < 4294967296) :
    parse_op (78 :: (data.length % 256 :: (data.length / 256 % 256 ::
      (data.length / 65536 % 256 :: (data.length / 16777216 % 256 ::
      (data ++ r)))))) = some (Operation.mk Opcode.pushdata4 data, r) := by
  have hL : data.length % 256 + 256 * (data.length / 256 % 256)
      + 65536 * (data.length / 65536 % 256)
      + 16777216 * (data.length / 16777216 % 256) = data.length := by omega
  have hne1 : ¬ ((78 : Nat) = 76) := by decide
  have hne2 : ¬ ((78 : Nat) = 77) := by decide
  have hnl : ¬ (data.length + r.length < data.length) := by omega
  simp only [parse_op, List.length_append, hL]
  rw [if_neg hne1, if_neg hne2, if_neg hnl, List.take_left, List.drop_left]
  simp

lemma parse_op_save (op : Operation) (r : List Nat)
    (h : well_formed_op op = true) :
    parse_op (save_op op ++ r) = some (op, r) := by
  obtain ⟨c, data⟩ := op
  cases c
  case raw_data =>
    simp only [well_formed_op, is_push_code, if_true, Bool.and_eq_true,
      beq_iff_eq, decide_eq_true_eq] at h
    have h75 := smallest_eq_raw_data data.length h.1
    have hs : save_op (Operation.mk Opcode.raw_data data) ++ r
        = data.length :: (data ++ r) := by
      simp [save_op, is_push_code, h75]
    rw [hs]
    exact parse_op_direct data r h75
  case special =>
    simp only [well_formed_op, is_push_code, if_true, Bool.and_eq_true,
      beq_iff_eq, decide_eq_true_eq] at h
    exact absurd h.1 (smallest_ne_special data.length)
  case pushdata1 =>
    simp only [well_formed_op, is_push_code, if_true, Bool.and_eq_true,
      beq_iff_eq, decide_eq_true_eq] at h
    obtain ⟨h76, h255⟩ := smallest_eq_pushdata1 data.length h.1
    have hn75 : ¬ (data.length ≤ 75) := by omega
    have hs : save_op (Operation.mk Opcode.pushdata1 data) ++ r
        = 76 :: (data.length :: (data ++ r)) := by
      simp [save_op, is_push_code, hn75, h255]
    rw [hs]
    exact parse_op_pd1 data r (by omega) h255
  case pushdata2 =>
    simp only [well_formed_op, is_push_code, if_true, Bool.and_eq_true,
      beq_iff_eq, decide_eq_true_eq] at h
    obtain ⟨h256, h65535⟩ := smallest_eq_pushdata2 data.length h.1
    have hn75 : ¬ (data.length ≤ 75) := by omega
    have hn255 : ¬ (data.length ≤ 255) := by omega
    have hs : save_op (Operation.mk Opcode.pushdata2 data) ++ r
        = 77 :: (data.length % 256 :: (data.length / 256 % 256
            :: (data ++ r))) := by
      simp [save_op, is_push_code, to_le2, hn75, hn255, h65535]
    rw [hs]
    exact parse_op_pd2 data r (by omega) h65535
  case pushdata4 =>
    simp only [well_formed_op, is_push_code, if_true, Bool.and_eq_true,
      beq_iff_eq, decide_eq_true_eq] at h
    have h65536 := smallest_eq_pushdata4 data.length h.1
    have hn75 : ¬ (data.length ≤ 75) := by omega
    have hn255 : ¬ (data.length ≤ 255) := by omega
    have hn65535 : ¬ (data.length ≤ 65535) := by omega
    have hs : save_op (Operation.mk Opcode.pushdata4 data) ++ r
        = 78 :: (data.length % 256 :: (data.length / 256 % 256
            :: (data.length / 65536 % 256 :: (data.length / 16777216 % 256
            :: (data ++ r))))) := by
      simp [save_op, is_push_code, to_le4, hn75, hn255, hn65535]
    rw [hs]
    exact parse_op_pd4 data r (by omega) h.2
  all_goals (simp only [well_formed_op, is_push_code, Bool.false_eq_true,
    if_false, beq_iff_eq] at h; subst h; rfl)

lemma parse_loop_save (s : List Operation) : ∀ fuel : Nat,
    well_formed_script s = true → (save_script s).length ≤ fuel →
    parse_loop fuel (save_script s) = some s := by
  induction s with
  | nil =>
    intro fuel hw hf
    cases fuel <;> rfl
  | cons op rest ih =>
    intro fuel hw hf
    have hops : well_formed_op op = true ∧ well_formed_script rest = true := by
      simpa [well_formed_script, List.all_cons] using hw
    have hpos := save_op_length_pos op
    obtain ⟨x, xs, hx⟩ := List.exists_cons_of_ne_nil
      (List.length_pos.mp hpos)
    have hcons : save_script (op :: rest)
        = save_op op ++ save_script rest := rfl
    cases fuel with
    | zero =>
      rw [hcons, hx] at hf
      simp at hf
    | succ f =>
      have hf2 : (save_script rest).length ≤ f := by
        rw [hcons, List.length_append] at hf
        omega
      rw [hcons, hx, List.cons_append]
      simp only [parse_loop]
      rw [← List.cons_append, ← hx, parse_op_save op (save_script rest) hops.1]
      simp only [ih f hops.2 hf2]

/-- Claim C2: for every well-formed script `s` (each push payload tagged
with its smallest encoding, non-push operations without payload),
decoding the serialization recovers `s` exactly: `save_script` is the
inverse of `parse_script`, the serializer choosing the smallest push
encoding that fits each push payload's size. -/
theorem parse_save_script_roundtrip (s : List Operation)
    (h : well_formed_script s = true) :
    parse_script (save_script s) = some s :=
  parse_loop_save s (save_script s).length h le_rfl

/-- Witness for C2: a concrete well-formed script with a direct push, a
`pushdata1` push, and non-push operations round-trips. -/
theorem parse_save_script_roundtrip_witness :
    parse_script (save_script
      [Operation.mk Opcode.raw_data [1, 2, 3],
       Operation.mk Opcode.pushdata1 (List.replicate 80 7),
       Operation.mk Opcode.dup [],
       Operation.mk Opcode.hash160 [],
       Operation.mk Opcode.checksig []])
      = some
      [Operation.mk Opcode.raw_data [1, 2, 3],
       Operation.mk Opcode.pushdata1 (List.replicate 80 7),
       Operation.mk Opcode.dup [],
       Operation.mk Opcode.hash160 [],
       Operation.mk Opcode.checksig []] :=
  parse_save_script_roundtrip
    [Operation.mk Opcode.raw_data [1, 2, 3],
     Operation.mk Opcode.pushdata1 (List.replicate 80 7),
     Operation.mk Opcode.dup [],
     Operation.mk Opcode.hash160 [],
     Operation.mk Opcode.checksig []] (by decide)

/-- Claim C3: for a successfully parsed heading bearing the channel's
magic on a running channel: a payload size strictly greater than
`max_payload_size` stops the channel with `bad_stream` (relayed to the
stop subscribers) and no payload read is initiated; a payload size equal
to `max_payload_size` is accepted and the payload read is initiated. -/
theorem oversize_payload_guard (magic : Nat) (head : Heading)
    (p : ProxyState) (hrun : p.stopped = false)
    (hmagic : head.magic = magic) :
    (proxy.max_payload_size < head.payload_size →
      proxy.handle_read_heading magic Code.success (some head) p
        = (ProxyState.mk true,
           [Event.msgSubscriberStopped,
            Event.msgBroadcast Code.channel_stopped,
            Event.stopSubscriberStopped, Event.stopRelay Code.bad_stream,
            Event.handleStopping, Event.socketClosed])
      ∧ ∀ n, Event.readPayloadInitiated n
          ∉ (proxy.handle_read_heading magic Code.success (some head) p).2)
    ∧ (head.payload_size = proxy.max_payload_size →
      proxy.handle_read_heading magic Code.success (some head) p
        = (p, [Event.readPayloadInitiated head.payload_size,
               Event.activity])) := by
  constructor
  · intro hover
    constructor
    · simp [proxy.handle_read_heading, proxy.stop, hrun, hmagic, hover]
    · intro n
      simp [proxy.handle_read_heading, proxy.stop, hrun, hmagic, hover]
  · intro heq
    simp [proxy.handle_read_heading, proxy.read_payload, proxy.stop,
      hrun, hmagic, heq]

/-- Witness for C3: on a running channel with magic 7, a heading
declaring `max_payload_size + 1` bytes stops the channel with
`bad_stream`; a heading declaring exactly `max_payload_size` bytes
initiates the payload read. -/
theorem oversize_payload_guard_witness :
    proxy.handle_read_heading 7 Code.success
        (some (Heading.mk 7 [] 10485761 0)) (ProxyState.mk false)
      = (ProxyState.mk true,
         [Event.msgSubscriberStopped, Event.msgBroadcast Code.channel_stopped,
          Event.stopSubscriberStopped, Event.stopRelay Code.bad_stream,
          Event.handleStopping, Event.socketClosed])
    ∧ proxy.handle_read_heading 7 Code.success
        (some (Heading.mk 7 [] 10485760 0)) (ProxyState.mk false)
      = (ProxyState.mk false,
         [Event.readPayloadInitiated 10485760, Event.activity]) :=
  ⟨((oversize_payload_guard 7 (Heading.mk 7 [] 10485761 0)
      (ProxyState.mk false) rfl rfl).1 (by decide)).1,
   (oversize_payload_guard 7 (Heading.mk 7 [] 10485760 0)
      (ProxyState.mk false) rfl rfl).2 (by decide)⟩

/-- Claim C4: once a channel is stopped, `do_send` invokes its handler
with `channel_stopped` without writing to the socket, both
read-completion handlers return without delivering anything, and any
`stop` leaves the channel stopped — hence after `stop` returns, no new
message delivery occurs and no new send succeeds. -/
theorem stopped_channel_inert (message : List Nat) (ec : Code)
    (head : Heading) (cks : Nat) (pe : Code) (ss : Option Code)
    (magic : Nat) (parsed : Option Heading) (p : ProxyState)
    (h : p.stopped = true) :
    proxy.do_send message p
      = (p, [Event.handlerCalled Code.channel_stopped])
    ∧ proxy.handle_read_payload ec head cks pe ss p = (p, [])
    ∧ proxy.handle_read_heading magic ec parsed p = (p, [])
    ∧ ∀ c : Code, ∀ q : ProxyState, (proxy.stop c q).1.stopped = true := by
  refine ⟨by simp [proxy.do_send, h], by simp [proxy.handle_read_payload, h],
    by simp [proxy.handle_read_heading, h], ?_⟩
  intro c q
  by_cases hq : q.stopped = true <;> simp [proxy.stop, hq]

/-- Witness for C4: a stopped channel refuses a send with
`channel_stopped`, its read handlers produce no events, and stopping a
running channel leaves it stopped. -/
theorem stopped_channel_inert_witness :
    proxy.do_send [0] (ProxyState.mk true)
      = (ProxyState.mk true, [Event.handlerCalled Code.channel_stopped])
    ∧ proxy.handle_read_payload Code.success (Heading.mk 0 [] 0 0) 0
        Code.success none (ProxyState.mk true) = (ProxyState.mk true, [])
    ∧ proxy.handle_read_heading 0 Code.success none (ProxyState.mk true)
      = (ProxyState.mk true, [])
    ∧ (proxy.stop Code.bad_stream (ProxyState.mk false)).1.stopped = true :=
  have h := stopped_channel_inert [0] Code.success (Heading.mk 0 [] 0 0) 0
    Code.success none 0 none (ProxyState.mk true) rfl
  ⟨h.1, h.2.1, h.2.2.1, h.2.2.2 Code.bad_stream (ProxyState.mk false)⟩

/-- Claim C5: on a running channel, the first `stop` with a non-success
code sets `stopped`, stops and broadcasts `channel_stopped` to the
message subscribers, stops and relays the code to the stop subscribers,
and closes the socket; the flag only moves from false to true and every
subsequent `stop` returns with no further effect. -/
theorem stop_transitions_once (ec ec2 : Code) (p : ProxyState)
    (_hec : ec ≠ Code.success) (h : p.stopped = false) :
    proxy.stop ec p
      = (ProxyState.mk true,
         [Event.msgSubscriberStopped, Event.msgBroadcast Code.channel_stopped,
          Event.stopSubscriberStopped, Event.stopRelay ec,
          Event.handleStopping, Event.socketClosed])
    ∧ (proxy.stop ec p).1.stopped = true
    ∧ proxy.stop ec2 (proxy.stop ec p).1 = ((proxy.stop ec p).1, []) := by
  simp [proxy.stop, h]

/-- Witness for C5: stopping a running channel with `bad_stream`
broadcasts, relays and closes; a second stop has no effect. -/
theorem stop_transitions_once_witness :
    proxy.stop Code.bad_stream (ProxyState.mk false)
      = (ProxyState.mk true,
         [Event.msgSubscriberStopped, Event.msgBroadcast Code.channel_stopped,
          Event.stopSubscriberStopped, Event.stopRelay Code.bad_stream,
          Event.handleStopping, Event.socketClosed])
    ∧ (proxy.stop Code.bad_stream (ProxyState.mk false)).1.stopped = true
    ∧ proxy.stop Code.service_stopped
        (proxy.stop Code.bad_stream (ProxyState.mk false)).1
      = ((proxy.stop Code.bad_stream (ProxyState.mk false)).1, []) :=
  stop_transitions_once Code.bad_stream Code.service_stopped
    (ProxyState.mk false) (by decide) rfl

/-- Claim C6: on a running channel, a 24-byte heading read that fails to
parse, or parses with a magic different from the channel's, stops the
channel with `bad_stream` and initiates no payload read. -/
theorem bad_heading_stops_channel (magic : Nat) (parsed : Option Heading)
    (p : ProxyState) (h : p.stopped = false)
    (hbad : parsed = none
      ∨ ∃ head, parsed = some head ∧ head.magic ≠ magic) :
    proxy.handle_read_heading magic Code.success parsed p
      = (ProxyState.mk true,
         [Event.msgSubscriberStopped, Event.msgBroadcast Code.channel_stopped,
          Event.stopSubscriberStopped, Event.stopRelay Code.bad_stream,
          Event.handleStopping, Event.socketClosed])
    ∧ ∀ n, Event.readPayloadInitiated n
        ∉ (proxy.handle_read_heading magic Code.success parsed p).2 := by
  rcases hbad with hnone | ⟨head, hsome, hmagic⟩
  · subst hnone
    constructor
    · simp [proxy.handle_read_heading, proxy.stop, h]
    · intro n
      simp [proxy.handle_read_heading, proxy.stop, h]
  · subst hsome
    constructor
    · simp [proxy.handle_read_heading, proxy.stop, h, hmagic]
    · intro n
      simp [proxy.handle_read_heading, proxy.stop, h, hmagic]

/-- Witness for C6: a heading with magic 8 on a channel with magic 7
stops the channel with `bad_stream`. -/
theorem bad_heading_stops_channel_witness :
    proxy.handle_read_heading 7 Code.success (some (Heading.mk 8 [] 0 0))
        (ProxyState.mk false)
      = (ProxyState.mk true,
         [Event.msgSubscriberStopped, Event.msgBroadcast Code.channel_stopped,
          Event.stopSubscriberStopped, Event.stopRelay Code.bad_stream,
          Event.handleStopping, Event.socketClosed]) :=
  (bad_heading_stops_channel 7 (some (Heading.mk 8 [] 0 0))
    (ProxyState.mk false) rfl
    (Or.inr ⟨Heading.mk 8 [] 0 0, rfl, by decide⟩)).1

/-- Claim C7: `proxy::start` invokes the handler with `operation_failed`
and changes no state when the proxy is not stopped; otherwise it clears
`stopped`, starts the stop subscriber and the message subscriber, invokes
the handler with `success`, and only then initiates the heading read, so
subscriptions made inside the handler miss no messages. -/
theorem start_reports_then_reads (p : ProxyState) :
    (p.stopped = false →
      proxy.start p = (p, [Event.handlerCalled Code.operation_failed]))
    ∧ (p.stopped = true →
      proxy.start p
        = (ProxyState.mk false,
           [Event.stopSubscriberStarted, Event.msgSubscriberStarted,
            Event.handlerCalled Code.success, Event.readHeadingInitiated])) := by
  constructor <;> intro h <;> simp [proxy.start, proxy.read_heading, h]

/-- Witness for C7: a running proxy rejects `start`; a stopped proxy
starts, reports success, then initiates the first heading read. -/
theorem start_reports_then_reads_witness :
    proxy.start (ProxyState.mk false)
      = (ProxyState.mk false, [Event.handlerCalled Code.operation_failed])
    ∧ proxy.start (ProxyState.mk true)
      = (ProxyState.mk false,
         [Event.stopSubscriberStarted, Event.msgSubscriberStarted,
          Event.handlerCalled Code.success, Event.readHeadingInitiated]) :=
  ⟨(start_reports_then_reads (ProxyState.mk false)).1 rfl,
   (start_reports_then_reads (ProxyState.mk true)).2 rfl⟩

/-- Claim C10: after `handle_read_payload` stops the channel for a
checksum mismatch, a transport error, or a payload parse error, the
channel is stopped and no socket read is initiated by the handler — in
particular the parse-error branch falls through to the trailing
`read_heading`, which returns immediately on a stopped channel. -/
theorem no_read_after_payload_error (ec : Code) (head : Heading)
    (cks : Nat) (pe : Code) (ss : Option Code) (p : ProxyState)
    (h : p.stopped = false)
    (herr : head.checksum ≠ cks ∨ ec ≠ Code.success
      ∨ pe ≠ Code.success) :
    (proxy.handle_read_payload ec head cks pe ss p).1.stopped = true
    ∧ Event.readHeadingInitiated
        ∉ (proxy.handle_read_payload ec head cks pe ss p).2
    ∧ (∀ n, Event.readPayloadInitiated n
        ∉ (proxy.handle_read_payload ec head cks pe ss p).2)
    ∧ ∀ q : ProxyState, q.stopped = true →
        proxy.read_heading q = (q, []) := by
  have hrh : ∀ q : ProxyState, q.stopped = true →
      proxy.read_heading q = (q, []) := by
    intro q hq
    simp [proxy.read_heading, hq]
  by_cases hck : head.checksum = cks
  · cases ss with
    | some c =>
      refine ⟨?_, ?_, ?_, hrh⟩ <;>
        simp [proxy.handle_read_payload, proxy.subscriber_load, proxy.stop,
          h, hck]
    | none =>
      by_cases hec : ec = Code.success
      · have hpe : pe ≠ Code.success := by
          rcases herr with h1 | h2 | h3
          · exact absurd hck h1
          · exact absurd hec h2
          · exact h3
        subst hec
        refine ⟨?_, ?_, ?_, hrh⟩ <;>
          simp [proxy.handle_read_payload, proxy.subscriber_load, proxy.stop,
            proxy.read_heading, h, hck, hpe]
      · refine ⟨?_, ?_, ?_, hrh⟩ <;>
          simp [proxy.handle_read_payload, proxy.subscriber_load, proxy.stop,
            h, hck, hec]
  · refine ⟨?_, ?_, ?_, hrh⟩ <;>
      simp [proxy.handle_read_payload, proxy.stop, h, hck]

/-- Witness for C10: a parse error on a running channel leaves the
channel stopped with no heading read initiated. -/
theorem no_read_after_payload_error_witness :
    (proxy.handle_read_payload Code.success (Heading.mk 0 [] 0 5) 5
        Code.bad_stream none (ProxyState.mk false)).1.stopped = true
    ∧ Event.readHeadingInitiated
        ∉ (proxy.handle_read_payload Code.success (Heading.mk 0 [] 0 5) 5
            Code.bad_stream none (ProxyState.mk false)).2 :=
  have h := no_read_after_payload_error Code.success (Heading.mk 0 [] 0 5) 5
    Code.bad_stream none (ProxyState.mk false) rfl
    (Or.inr (Or.inr (by decide)))
  ⟨h.1, h.2.1⟩

/-- Claim C8: `p2p::start` invokes the handler with `operation_failed`
when the manager is not stopped; otherwise it clears `stopped`, starts
the subscriber and the thread pool, then in order starts the manual
session, loads the host store, starts the seed session, and finally
invokes the handler with `success`; an error from any step is passed to
the handler and aborts the remainder, and a manager stopped in between
reports `service_stopped`. -/
theorem p2p_start_chain (mr lr sr : Code) (m : P2PState) :
    (m.stopped = false →
      p2p.start mr lr sr m
        = (m, [PEvent.handlerCalled Code.operation_failed]))
    ∧ (m.stopped = true → mr = Code.success → lr = Code.success →
       sr = Code.success →
      p2p.start mr lr sr m
        = (P2PState.mk false true,
           [PEvent.subscriberStarted, PEvent.threadpoolJoin,
            PEvent.threadpoolSpawn, PEvent.manualSessionAttached,
            PEvent.manualSessionStarted, PEvent.hostsLoad,
            PEvent.seedSessionAttached, PEvent.seedSessionStarted,
            PEvent.handlerCalled Code.success]))
    ∧ (m.stopped = true → mr ≠ Code.success →
      p2p.start mr lr sr m
        = (P2PState.mk false true,
           [PEvent.subscriberStarted, PEvent.threadpoolJoin,
            PEvent.threadpoolSpawn, PEvent.manualSessionAttached,
            PEvent.manualSessionStarted, PEvent.handlerCalled mr]))
    ∧ (m.stopped = true → mr = Code.success → lr ≠ Code.success →
      p2p.start mr lr sr m
        = (P2PState.mk false true,
           [PEvent.subscriberStarted, PEvent.threadpoolJoin,
            PEvent.threadpoolSpawn, PEvent.manualSessionAttached,
            PEvent.manualSessionStarted, PEvent.hostsLoad,
            PEvent.handlerCalled lr]))
    ∧ (m.stopped = true → mr = Code.success → lr = Code.success →
       sr ≠ Code.success →
      p2p.start mr lr sr m
        = (P2PState.mk false true,
           [PEvent.subscriberStarted, PEvent.threadpoolJoin,
            PEvent.threadpoolSpawn, PEvent.manualSessionAttached,
            PEvent.manualSessionStarted, PEvent.hostsLoad,
            PEvent.seedSessionAttached, PEvent.seedSessionStarted,
            PEvent.handlerCalled sr]))
    ∧ ∀ m2 : P2PState, m2.stopped = true →
      p2p.handle_manual_started lr sr mr m2
        = (m2, [PEvent.handlerCalled Code.service_stopped]) := by
  refine ⟨?_, ?_, ?_, ?_, ?_, ?_⟩
  · intro h
    simp [p2p.start, h]
  · intro h h1 h2 h3
    subst h1; subst h2; subst h3
    simp [p2p.start, p2p.handle_manual_started, p2p.handle_hosts_loaded,
      p2p.handle_hosts_seeded, h]
  · intro h h1
    simp [p2p.start, p2p.handle_manual_started, h, h1]
  · intro h h1 h2
    subst h1
    simp [p2p.start, p2p.handle_manual_started, p2p.handle_hosts_loaded,
      h, h2]
  · intro h h1 h2 h3
    subst h1; subst h2
    simp [p2p.start, p2p.handle_manual_started, p2p.handle_hosts_loaded,
      p2p.handle_hosts_seeded, h, h3]
  · intro m2 h2
    simp [p2p.handle_manual_started, h2]

/-- Witness for C8: the all-success chain, a failing manual session, a
rejected start on a running manager, and a stop arriving before the
manual session completed. -/
theorem p2p_start_chain_witness :
    p2p.start Code.success Code.success Code.success (P2PState.mk true false)
      = (P2PState.mk false true,
         [PEvent.subscriberStarted, PEvent.threadpoolJoin,
          PEvent.threadpoolSpawn, PEvent.manualSessionAttached,
          PEvent.manualSessionStarted, PEvent.hostsLoad,
          PEvent.seedSessionAttached, PEvent.seedSessionStarted,
          PEvent.handlerCalled Code.success])
    ∧ p2p.start Code.file_system Code.success Code.success
        (P2PState.mk true false)
      = (P2PState.mk false true,
         [PEvent.subscriberStarted, PEvent.threadpoolJoin,
          PEvent.threadpoolSpawn, PEvent.manualSessionAttached,
          PEvent.manualSessionStarted,
          PEvent.handlerCalled Code.file_system])
    ∧ p2p.start Code.success Code.success Code.success
        (P2PState.mk false false)
      = (P2PState.mk false false,
         [PEvent.handlerCalled Code.operation_failed])
    ∧ p2p.handle_manual_started Code.success Code.success Code.success
        (P2PState.mk true false)
      = (P2PState.mk true false,
         [PEvent.handlerCalled Code.service_stopped]) :=
  have h1 := p2p_start_chain Code.success Code.success Code.success
    (P2PState.mk true false)
  have h2 := p2p_start_chain Code.file_system Code.success Code.success
    (P2PState.mk true false)
  have h3 := p2p_start_chain Code.success Code.success Code.success
    (P2PState.mk false false)
  ⟨h1.2.1 rfl rfl rfl rfl, h2.2.2.1 rfl (by decide), h3.1 rfl,
   h1.2.2.2.2.2 (P2PState.mk true false) rfl⟩

/-- Claim C9: `p2p::stop` is idempotent: the host store is saved only
when the manager was not already stopped, every call invokes its
handler, the first call reports the host-save result, and every
subsequent call reports `success` with no further save. -/
theorem p2p_stop_idempotent (r r2 : Code) (m : P2PState) :
    (m.stopped = false →
      p2p.stop r m
        = (P2PState.mk true false,
           [PEvent.subscriberStopped,
            PEvent.subscriberRelay Code.service_stopped,
            PEvent.connectionsStopped Code.service_stopped,
            PEvent.manualCleared, PEvent.hostsSave,
            PEvent.threadpoolShutdown, PEvent.handlerCalled r]))
    ∧ (m.stopped = true →
      p2p.stop r m
        = (P2PState.mk true false,
           [PEvent.subscriberStopped,
            PEvent.subscriberRelay Code.service_stopped,
            PEvent.connectionsStopped Code.service_stopped,
            PEvent.manualCleared, PEvent.threadpoolShutdown,
            PEvent.handlerCalled Code.success]))
    ∧ (p2p.stop r m).1.stopped = true
    ∧ p2p.stop r2 (p2p.stop r m).1
        = (P2PState.mk true false,
           [PEvent.subscriberStopped,
            PEvent.subscriberRelay Code.service_stopped,
            PEvent.connectionsStopped Code.service_stopped,
            PEvent.manualCleared, PEvent.threadpoolShutdown,
            PEvent.handlerCalled Code.success])
    ∧ PEvent.handlerCalled (if m.stopped then Code.success else r)
        ∈ (p2p.stop r m).2 := by
  refine ⟨?_, ?_, ?_, ?_, ?_⟩
  · intro h
    simp [p2p.stop, h]
  · intro h
    simp [p2p.stop, h]
  · simp [p2p.stop]
  · simp [p2p.stop]
  · by_cases h : m.stopped = true <;> simp [p2p.stop, h]

/-- Witness for C9: the first stop of a running manager saves the hosts
and reports the save result; the second stop skips the save and reports
`success`. -/
theorem p2p_stop_idempotent_witness :
    p2p.stop Code.file_system (P2PState.mk false true)
      = (P2PState.mk true false,
         [PEvent.subscriberStopped,
          PEvent.subscriberRelay Code.service_stopped,
          PEvent.connectionsStopped Code.service_stopped,
          PEvent.manualCleared, PEvent.hostsSave,
          PEvent.threadpoolShutdown, PEvent.handlerCalled Code.file_system])
    ∧ p2p.stop Code.file_system
        (p2p.stop Code.file_system (P2PState.mk false true)).1
      = (P2PState.mk true false,
         [PEvent.subscriberStopped,
          PEvent.subscriberRelay Code.service_stopped,
          PEvent.connectionsStopped Code.service_stopped,
          PEvent.manualCleared, PEvent.threadpoolShutdown,
          PEvent.handlerCalled Code.success]) :=
  have h := p2p_stop_idempotent Code.file_system Code.file_system
    (P2PState.mk false true)
  ⟨h.1 rfl, h.2.2.2.1⟩
